import Mathlib

/-!
Verification of the frontend core of the healthcare symptom checker
(`frontend/app.js`): the advisory-record renderer (`buildResultHTML`), the
incremental-reveal driver (`typeResult`), the history preview text
(`loadHistory`), the saved-result lookup (`loadResultById`), and the
submit-handler button protocol.

Modelling conventions:
* JS strings are modelled as Lean `String` (a list of characters); positions
  and lengths count characters where JS counts UTF-16 code units — the claims
  under study do not depend on that distinction.
* `undefined`/`null` object fields are modelled as `Option.none`; JS
  truthiness of `x || d` on strings (empty string is falsy) is modelled by
  `jsOrElse`.
* The browser clock (`Date.now()`) is modelled as an explicit `now : Nat`
  parameter threaded to the functions that read it, making the code's hidden
  clock dependence visible in the embedding.
* The browser date formatter (`new Date(v).toLocaleString()`) is an external
  platform API; it is modelled by the abstract injective formatters
  `jsDateOfString` / `jsDateOfNow`.
* `setInterval` timers are modelled by an explicit step function: one
  application of the tick function corresponds to one timer firing; a
  cleared (`clearInterval`) timer is modelled by its `active` flag being
  false, after which its tick is the identity.
-/

/-! ## Data model (Advisory Schema, as consumed by `app.js`) -/

/-- Escalation object of an advisory record: `{level, message}`. -/
structure Escalation where
  level : String
  message : String
deriving DecidableEq

/-- One probable condition: `{name, confidence, rationale}`; `confidence`
may be absent (`undefined`), which `app.js` renders via optional chaining. -/
structure Condition where
  name : String
  confidence : Option String
  rationale : String
deriving DecidableEq

/-- Metadata object: `{model, timestamp}`, each possibly absent. -/
structure Metadata where
  model : Option String
  timestamp : Option String
deriving DecidableEq

/-- Advisory record as consumed by `buildResultHTML` in `app.js`:
`disclaimer`, optional `escalation`, possibly-null `probable_conditions`
and `next_steps`, optional `metadata`. -/
structure AdvisoryRecord where
  disclaimer : String
  escalation : Option Escalation
  probable_conditions : Option (List Condition)
  next_steps : Option (List String)
  metadata : Option Metadata
deriving DecidableEq

/-- History entry as returned by the `/history` endpoint and consumed by
`loadResultById`: the saved advisory reply `model_response` may be absent. -/
structure HistoryEntry where
  query_id : String
  symptoms : String
  timestamp : String
  model_response : Option AdvisoryRecord
deriving DecidableEq

/-! ## Models of the JS primitives used by `app.js` -/

/-- JS `String.prototype.toLowerCase()` (ASCII part, which is all the code
relies on): lowercases every character. -/
def jsToLower (s : String) : String :=
  ⟨s.data.map Char.toLower⟩

/-- JS `String.prototype.toUpperCase()` (ASCII part). -/
def jsToUpper (s : String) : String :=
  ⟨s.data.map Char.toUpper⟩

/-- JS `s.slice(0, n)`: the prefix of the first `n` characters. -/
def jsSlice (s : String) (n : Nat) : String :=
  ⟨s.data.take n⟩

/-- JS template interpolation of a possibly-`undefined` string value:
`undefined` is printed as the literal text `undefined`. -/
def jsInterp : Option String → String
  | some s => s
  | none => "undefined"

/-- JS `v || d` on a possibly-absent string: `undefined`, `null` and the
empty string are falsy and yield the default. -/
def jsOrElse (v : Option String) (d : String) : String :=
  match v with
  | some s => if s = "" then d else s
  | none => d

/-- Abstract model of `new Date(s).toLocaleString()` for a stored timestamp
string `s` (external browser API; modelled as an injective formatter). -/
def jsDateOfString (s : String) : String :=
  "⟦Date " ++ s ++ "⟧"

/-- Abstract model of `new Date(n).toLocaleString()` for the numeric clock
value `n = Date.now()` (external browser API; injective formatter, with an
image disjoint from `jsDateOfString` since the argument types differ). -/
def jsDateOfNow (n : Nat) : String :=
  "⟦Date now=" ++ toString n ++ "⟧"

/-- JS `Array.prototype.join("")`: concatenation of a list of strings. -/
def jsJoin : List String → String
  | [] => ""
  | s :: rest => s ++ jsJoin rest

/-- Substring containment on strings (used to state that rendered markup
contains a given fragment). -/
def containsSub (needle hay : String) : Prop :=
  needle.data <:+: hay.data

instance (needle hay : String) : Decidable (containsSub needle hay) :=
  inferInstanceAs (Decidable (needle.data <:+: hay.data))

/-! ## Presentation renderer (`buildResultHTML`, app.js lines 121–155)

The JS function builds the markup from four local constants; they are
hoisted here to named top-level functions with the template text transcribed
verbatim. -/

/-- The `escalation` constant of `buildResultHTML`: the escalation banner,
emitted exactly when `data.escalation` is present (objects are truthy). -/
def escalationHTML : Option Escalation → String
  | some e =>
      "<div class=\"alert " ++ e.level ++ "\">\n        🚨 <b>"
        ++ jsToUpper e.level ++ "</b>: " ++ e.message ++ "\n      </div>"
  | none => ""

/-- The per-condition block produced inside the `conditions` constant of
`buildResultHTML`. -/
def condBlock (c : Condition) : String :=
  "\n      <div class=\"condition\">\n        <h3>" ++ c.name
    ++ "</h3>\n        <div class=\"confidence-bar "
    ++ jsInterp (c.confidence.map jsToLower)
    ++ "\"><div></div></div>\n        <p><b>Confidence:</b> "
    ++ jsInterp c.confidence ++ "</p>\n        <p>" ++ c.rationale
    ++ "</p>\n      </div>"

/-- The `conditions` constant of `buildResultHTML`:
`(data.probable_conditions || []).map(...).join("")`. -/
def conditionsHTML (pc : Option (List Condition)) : String :=
  jsJoin ((pc.getD []).map condBlock)

/-- The `nextSteps` constant of `buildResultHTML`:
`(data.next_steps || []).map((s) => `<li>...</li>`).join("")`. -/
def nextStepsHTML (ns : Option (List String)) : String :=
  jsJoin ((ns.getD []).map (fun s => "<li>" ++ s ++ "</li>"))

/-- The model name shown in the metadata footer:
`data.metadata?.model || "local"`. -/
def shownModel (m : Option Metadata) : String :=
  jsOrElse (m.bind Metadata.model) "local"

/-- The timestamp text shown in the metadata footer:
`new Date(data.metadata?.timestamp || Date.now()).toLocaleString()`. -/
def shownTimestamp (m : Option Metadata) (now : Nat) : String :=
  match m.bind Metadata.timestamp with
  | some s => if s = "" then jsDateOfNow now else jsDateOfString s
  | none => jsDateOfNow now

/-- `buildResultHTML(data)` from app.js: the full result markup, transcribed
from the source template. `now` is the explicit model of `Date.now()`. -/
def buildResultHTML (data : AdvisoryRecord) (now : Nat) : String :=
  "\n    <div class=\"result-card\">\n      <p class=\"disclaimer\">"
    ++ data.disclaimer ++ "</p>\n      "
    ++ escalationHTML data.escalation
    ++ "\n      <h2>🩺 Probable Conditions</h2>\n      "
    ++ conditionsHTML data.probable_conditions
    ++ "\n      <h2>🧭 Recommended Next Steps</h2>\n      <ul>"
    ++ nextStepsHTML data.next_steps
    ++ "</ul>\n      <div class=\"meta\">\n        <small><b>Model:</b> "
    ++ shownModel data.metadata
    ++ "</small> |\n        <small>"
    ++ shownTimestamp data.metadata now
    ++ "</small>\n      </div>\n    </div>"

/-! ## History preview (`loadHistory`, app.js line 45) -/

/-- The preview text of one history entry in the sidebar:
`h.symptoms.length > 50 ? h.symptoms.slice(0, 50) + "..." : h.symptoms`. -/
def previewText (symptoms : String) : String :=
  if symptoms.length > 50 then jsSlice symptoms 50 ++ "..." else symptoms

/-! ## Saved-result lookup (`loadResultById`, app.js lines 90–103) -/

/-- Outcome of `loadResultById` after the history fetch succeeded: either an
error message is written to the result element, or a reveal of the saved
response is started via `typeResult`. -/
inductive LoadOutcome where
  | showError (markup : String)
  | startReveal (response : AdvisoryRecord)
deriving DecidableEq

/-- `loadResultById(queryId)` from app.js, given the fetched history list:
finds the first entry with the requested id; if there is none, or it has no
saved `model_response`, writes the specific no-saved-response message;
otherwise starts the reveal of the saved response. -/
def loadResultById (history : List HistoryEntry) (queryId : String) : LoadOutcome :=
  match history.find? (fun r => r.query_id == queryId) with
  | none => .showError "<p class=\x27error\x27>❌ No saved response found.</p>"
  | some rec =>
      match rec.model_response with
      | none => .showError "<p class=\x27error\x27>❌ No saved response found.</p>"
      | some resp => .startReveal resp

/-! ## Submit handler (app.js lines 61–87) -/

/-- Resolution of the `/analyze` fetch: the `try` block completes with
parsed data, or it throws (network failure, non-JSON reply) with a message. -/
inductive FetchOutcome where
  | success (data : AdvisoryRecord)
  | failure (msg : String)

/-- Primitive UI effects performed by the submit handler, in order. -/
inductive UIAction where
  | setDisabled (b : Bool)
  | setBtnText (s : String)
  | setResult (markup : String)
  | fetchAnalyze
  | callTypeResult (data : AdvisoryRecord)
  | callLoadHistory

/-- The ordered effect trace of the `symptom-form` submit handler for a
given fetch outcome, transcribed from app.js lines 61–87: disable the
button and show the loading text, await the fetch, then either start the
reveal and refresh the sidebar (success) or show the error markup (failure),
and in the `finally` block re-enable the button. -/
def submitHandler (o : FetchOutcome) : List UIAction :=
  [.setDisabled true, .setBtnText "Analyzing...",
   .setResult "<p class=\x27loading\x27>⏳ Analyzing your symptoms...</p>",
   .fetchAnalyze]
  ++ (match o with
      | .success d => [.callTypeResult d, .callLoadHistory]
      | .failure m => [.setResult ("<p class=\x27error\x27>❌ " ++ m ++ "</p>")])
  ++ [.setDisabled false, .setBtnText "Analyze"]

/-- Whether a `UIAction` is the `/analyze` fetch. -/
def isFetchAction : UIAction → Bool
  | .fetchAnalyze => true
  | _ => false

/-- The disabled state of the analyze button after executing a list of
actions, starting from `init`. -/
def disabledAfter (init : Bool) (as : List UIAction) : Bool :=
  as.foldl (fun st a => match a with | .setDisabled b => b | _ => st) init

/-! ## Incremental-reveal driver (`typeResult`, app.js lines 106–118)

`typeResult` clears the result element, then starts a `setInterval` timer
whose tick executes `tempDiv.innerHTML = html.slice(0, i++);
resultEl.innerHTML = tempDiv.innerHTML; if (i >= html.length)
clearInterval(timer);`.  The markup string is modelled as its character
list, the `innerHTML` round trip through `tempDiv` as the identity on the
string, and a cleared timer as `active = false` (its tick is then the
identity, since a cleared interval never fires again). -/

/-- State of the single reveal timer started by one `typeResult` call:
the characters currently displayed in the result element, the counter `i`,
and whether the interval is still active (not yet cleared). -/
structure RevealState where
  display : List Char
  i : Nat
  active : Bool
deriving DecidableEq

/-- State just after `typeResult` ran its synchronous part:
`resultEl.innerHTML = ""`, `i = 0`, timer registered. -/
def revealInit : RevealState := ⟨[], 0, true⟩

/-- One firing of the `setInterval` callback of `typeResult`. -/
def revealTick (html : List Char) (s : RevealState) : RevealState :=
  if s.active then
    { display := html.take s.i
      i := s.i + 1
      active := decide (s.i + 1 < html.length) }
  else s

/-- The reveal state after `n` timer firings. -/
def revealRun (html : List Char) : Nat → RevealState
  | 0 => revealInit
  | n + 1 => revealTick html (revealRun html n)

/-! ## Overlapping `typeResult` calls (for the cancellation claim)

To examine what happens when `typeResult` is invoked while a previous
reveal is in flight, the display state is generalised to the result
element's content plus the list of all interval timers created so far
(each `typeResult` call creates a fresh local `timer`; the function holds
no reference to previously created intervals). -/

/-- One interval timer created by a `typeResult` call. -/
structure RevealJob where
  html : List Char
  i : Nat
  active : Bool
deriving DecidableEq

/-- The display surface: the result element's content and every interval
timer created so far (index = creation order). -/
structure DisplayState where
  shown : List Char
  jobs : List RevealJob
deriving DecidableEq

/-- The synchronous part of a `typeResult(data)` call on the display
surface: clear the result element and register a fresh interval timer; the
previously created timers are not referenced, hence left untouched. -/
def typeResultCall (html : List Char) (s : DisplayState) : DisplayState :=
  { shown := [], jobs := s.jobs ++ [⟨html, 0, true⟩] }

/-- Firing of the `t`-th interval timer (same callback body as
`revealTick`); a cleared or non-existent timer leaves the state unchanged. -/
def jobTick (s : DisplayState) (t : Nat) : DisplayState :=
  match s.jobs[t]? with
  | some j =>
      if j.active then
        { shown := j.html.take j.i
          jobs := s.jobs.set t
            ⟨j.html, j.i + 1, decide (j.i + 1 < j.html.length)⟩ }
      else s
  | none => s

/-! ## Concrete instances used in counterexamples and witnesses -/

/-- A typical advisory record (used to exercise the reveal driver). -/
def recDemo : AdvisoryRecord :=
  { disclaimer := "For educational purposes only."
    escalation := none
    probable_conditions := some [⟨"Viral infection", some "High", "Common presentation."⟩]
    next_steps := some ["Rest and hydrate."]
    metadata := some ⟨some "ollama", some "2025-01-01"⟩ }

/-- The rendered markup of `recDemo`, as a character list for the driver. -/
def demoHTML : List Char := (buildResultHTML recDemo 0).data

/-- An advisory record whose metadata (hence timestamp) is absent. -/
def recNoTs : AdvisoryRecord :=
  { disclaimer := "For educational purposes only."
    escalation := none
    probable_conditions := some []
    next_steps := some []
    metadata := none }

/-- An advisory record carrying a model name and a timestamp. -/
def recTs : AdvisoryRecord :=
  { disclaimer := "For educational purposes only."
    escalation := none
    probable_conditions := some []
    next_steps := some []
    metadata := some ⟨some "ollama", some "2025-01-01T00:00:00"⟩ }

/-- An advisory record with a critical escalation (spec scenario). -/
def recEsc : AdvisoryRecord :=
  { disclaimer := "For educational purposes only."
    escalation := some ⟨"critical", "Seek emergency care"⟩
    probable_conditions := some []
    next_steps := some []
    metadata := some ⟨some "ollama", some "2025-01-01"⟩ }

/-- An advisory record whose single condition has an unrecognized
confidence value. -/
def recBanana : AdvisoryRecord :=
  { disclaimer := "For educational purposes only."
    escalation := none
    probable_conditions := some [⟨"Flu", some "banana", "Just because."⟩]
    next_steps := some []
    metadata := none }

/-- A one-entry history whose record has no saved model response. -/
def histNoResponse : List HistoryEntry :=
  [⟨"q1", "sore throat and headache", "2025-01-01", none⟩]

/-- Display surface after `typeResult("XY")` ran and its timer fired once:
the first reveal is in flight. -/
def midReveal : DisplayState :=
  jobTick (typeResultCall ("XY".data) ⟨[], []⟩) 0

/-- Display surface after `typeResult("AB")` is invoked while the first
reveal is still in flight. -/
def overlapState : DisplayState :=
  typeResultCall ("AB".data) midReveal

/-- The markup of `buildResultHTML` that precedes the escalation slot
(used to state where the banner sits inside the record markup). -/
def resultPrefixHTML (r : AdvisoryRecord) : String :=
  "\n    <div class=\"result-card\">\n      <p class=\"disclaimer\">"
    ++ r.disclaimer ++ "</p>\n      "

/-- The markup of `buildResultHTML` that follows the escalation slot. -/
def resultSuffixHTML (r : AdvisoryRecord) (now : Nat) : String :=
  "\n      <h2>🩺 Probable Conditions</h2>\n      "
    ++ conditionsHTML r.probable_conditions
    ++ "\n      <h2>🧭 Recommended Next Steps</h2>\n      <ul>"
    ++ nextStepsHTML r.next_steps
    ++ "</ul>\n      <div class=\"meta\">\n        <small><b>Model:</b> "
    ++ shownModel r.metadata
    ++ "</small> |\n        <small>"
    ++ shownTimestamp r.metadata now
    ++ "</small>\n      </div>\n    </div>"

/-! ## Helper lemmas -/

theorem append_data (a b : String) : (a ++ b).data = a.data ++ b.data := by
  cases a; cases b; rfl

theorem string_eq_of_data (s t : String) (h : s.data = t.data) : s = t := by
  cases s; cases t; exact congrArg String.mk h

theorem strAppend_assoc (a b c : String) : a ++ b ++ c = a ++ (b ++ c) :=
  string_eq_of_data _ _ (by simp [append_data])

theorem take_prefix_mono (l : List Char) (a b : Nat) (h : a ≤ b) :
    l.take a <+: l.take b := by
  have h1 : (l.take b).take a = l.take a := by
    rw [List.take_take]
    congr 1
    omega
  rw [← h1]
  exact List.take_prefix a (l.take b)

theorem containsSub_of_decomp (hay pre needle post : String)
    (h : hay = pre ++ needle ++ post) : containsSub needle hay := by
  unfold containsSub
  refine ⟨pre.data, post.data, ?_⟩
  rw [h]
  simp [append_data]

/-! ## Claim theorems -/

/-- C5: for every history summary, when the symptoms text is longer than 50
characters the displayed preview is exactly the first 50 characters followed
by the ellipsis marker "..." (so its length is 53); when it is 50 characters
or shorter the symptoms text is shown verbatim. -/
theorem c5_preview_truncation : ∀ s : String,
    (s.length > 50 →
      (previewText s).data = s.data.take 50 ++ ('.' :: '.' :: '.' :: [])
      ∧ (previewText s).length = 53)
    ∧ (s.length ≤ 50 → previewText s = s) := by
  intro s
  constructor
  · intro h
    have hdots : ("..." : String).data = ('.' :: '.' :: '.' :: []) := by decide
    have hdata : (previewText s).data = s.data.take 50 ++ ('.' :: '.' :: '.' :: []) := by
      unfold previewText
      rw [if_pos h, append_data, hdots]
      simp [jsSlice]
    refine ⟨hdata, ?_⟩
    show (previewText s).data.length = 53
    rw [hdata]
    have hlen : s.data.length > 50 := h
    simp [List.length_take]
    omega
  · intro h
    unfold previewText
    rw [if_neg (by omega)]

/-- C5 witness: a 51-character symptoms text is previewed as its first 50
characters plus "...", and a short text is shown verbatim. -/
theorem c5_witness :
    (previewText "abcdefghijabcdefghijabcdefghijabcdefghijabcdefghijZ").data
      = ("abcdefghijabcdefghijabcdefghijabcdefghijabcdefghijZ" : String).data.take 50
          ++ ('.' :: '.' :: '.' :: [])
    ∧ previewText "sore throat" = "sore throat" :=
  ⟨((c5_preview_truncation "abcdefghijabcdefghijabcdefghijabcdefghijabcdefghijZ").1
      (by decide)).1,
   (c5_preview_truncation "sore throat").2 (by decide)⟩

/-- C9: when no stored record with the requested query id carries a saved
advisory response, `loadResultById` writes the specific no-saved-response
message (and in particular does not start a reveal). -/
theorem c9_unknown_id_message : ∀ (history : List HistoryEntry) (queryId : String),
    (∀ r ∈ history, r.query_id = queryId → r.model_response = none) →
    loadResultById history queryId
      = .showError "<p class=\x27error\x27>❌ No saved response found.</p>" := by
  intro history queryId h
  unfold loadResultById
  cases hf : history.find? (fun r => r.query_id == queryId) with
  | none => rfl
  | some rec =>
    have hp := List.find?_some hf
    have hm := List.mem_of_find?_eq_some hf
    have hq : rec.query_id = queryId := by simpa using hp
    have hmr := h rec hm hq
    simp [hmr]

/-- C9 witness: a history whose only entry with id "q1" has no saved
response makes `loadResultById` surface the no-saved-response message, both
for that id and for an id absent from the history. -/
theorem c9_witness :
    loadResultById histNoResponse "q1"
      = .showError "<p class=\x27error\x27>❌ No saved response found.</p>"
    ∧ loadResultById histNoResponse "unknown-id"
      = .showError "<p class=\x27error\x27>❌ No saved response found.</p>" :=
  ⟨c9_unknown_id_message histNoResponse "q1" (by decide),
   c9_unknown_id_message histNoResponse "unknown-id" (by decide)⟩

/-- C10: `buildResultHTML` treats null/absent `probable_conditions` and
`next_steps` as empty sequences: the empty-conditions section and empty
next-steps list are rendered, and the markup is the same as for explicitly
empty sequences. (Totality is inherent: the embedding is a total function,
faithfully so because `(x || [])` guards both field reads in the source.) -/
theorem c10_null_fields_default : ∀ (r : AdvisoryRecord) (now : Nat),
    conditionsHTML none = ""
    ∧ nextStepsHTML none = ""
    ∧ buildResultHTML
        { r with probable_conditions := none, next_steps := none } now
      = buildResultHTML
          { r with probable_conditions := some [], next_steps := some [] } now := by
  intro r now
  exact ⟨rfl, rfl, rfl⟩

/-- C8: the submit handler disables the analyze button before the
`/analyze` fetch, performs exactly one fetch, does not touch the disabled
state between the fetch and its resolution actions, and re-enables the
button as the final step of both the success and the failure path. -/
theorem c8_button_protocol : ∀ o : FetchOutcome,
    ∃ resolution : List UIAction,
      submitHandler o =
        [.setDisabled true, .setBtnText "Analyzing...",
         .setResult "<p class=\x27loading\x27>⏳ Analyzing your symptoms...</p>",
         .fetchAnalyze]
        ++ resolution
        ++ [.setDisabled false, .setBtnText "Analyze"]
      ∧ (∀ b, UIAction.setDisabled b ∉ resolution)
      ∧ (submitHandler o).countP isFetchAction = 1
      ∧ disabledAfter false (submitHandler o) = false := by
  intro o
  cases o with
  | success d =>
    refine ⟨[.callTypeResult d, .callLoadHistory], rfl, ?_, ?_, ?_⟩
    · intro b
      simp
    · simp [submitHandler, isFetchAction, List.countP, List.countP.go]
    · simp [submitHandler, disabledAfter, List.foldl]
  | failure m =>
    refine ⟨[.setResult ("<p class=\x27error\x27>❌ " ++ m ++ "</p>")], rfl, ?_, ?_, ?_⟩
    · intro b
      simp
    · simp [submitHandler, isFetchAction, List.countP, List.countP.go]
    · simp [submitHandler, disabledAfter, List.foldl]

/-- C8 witness: the failure path at a concrete error message exhibits the
trace decomposition. -/
theorem c8_witness :
    ∃ resolution : List UIAction,
      submitHandler (.failure "Failed to fetch") =
        [.setDisabled true, .setBtnText "Analyzing...",
         .setResult "<p class=\x27loading\x27>⏳ Analyzing your symptoms...</p>",
         .fetchAnalyze]
        ++ resolution
        ++ [.setDisabled false, .setBtnText "Analyze"]
      ∧ (∀ b, UIAction.setDisabled b ∉ resolution)
      ∧ (submitHandler (.failure "Failed to fetch")).countP isFetchAction = 1
      ∧ disabledAfter false (submitHandler (.failure "Failed to fetch")) = false :=
  c8_button_protocol (.failure "Failed to fetch")

set_option maxRecDepth 40000 in
/-- C3 counterexample: `buildResultHTML` is not deterministic in the sense
claimed. On a record without a metadata timestamp the footer embeds the
current clock (`Date.now()`), so two calls on the very same record at
different instants produce different markup strings. -/
theorem c3_counterexample :
    buildResultHTML recNoTs 0 ≠ buildResultHTML recNoTs 3600000 := by decide

/-- C3 (amended): the renderer is pure and deterministic for every record
whose metadata timestamp is present and non-empty; only the
timestamp-absent default reads the clock. -/
theorem c3_pure_when_timestamp_present :
    ∀ (r : AdvisoryRecord) (n₁ n₂ : Nat) (ts : String),
      r.metadata.bind Metadata.timestamp = some ts → ts ≠ "" →
      buildResultHTML r n₁ = buildResultHTML r n₂ := by
  intro r n₁ n₂ ts h1 h2
  unfold buildResultHTML shownTimestamp
  rw [h1]
  simp [h2]

/-- C3 witness: on a record carrying a timestamp, the markup is identical
at two different clock values. -/
theorem c3_witness : buildResultHTML recTs 0 = buildResultHTML recTs 3600000 :=
  c3_pure_when_timestamp_present recTs 0 3600000 "2025-01-01T00:00:00" rfl (by decide)

set_option maxRecDepth 40000 in
/-- C4 counterexample: an unrecognized confidence value is NOT rendered
without a confidence indicator. The value "banana" normalizes to none of
the three defined levels, yet the rendered record still contains the
confidence-bar indicator element, carrying the unrecognized value as its
class. -/
theorem c4_counterexample :
    containsSub "<div class=\"confidence-bar banana\"><div></div></div>"
      (buildResultHTML recBanana 0)
    ∧ jsToLower "banana" ≠ "low"
    ∧ jsToLower "banana" ≠ "medium"
    ∧ jsToLower "banana" ≠ "high" := by decide

/-- C4 (amended): confidence values differing only in letter case all map
to the same indicator class ("Low", "LOW", "low" all lowercase to "low"),
and a condition with any confidence value — recognized or not — is rendered
without failing, with the confidence-bar element always emitted and its
class equal to the lowercased confidence value. -/
theorem c4_confidence_normalization :
    ∀ (n rat conf : String),
      condBlock ⟨n, some conf, rat⟩
        = "\n      <div class=\"condition\">\n        <h3>" ++ n
          ++ "</h3>\n        <div class=\"confidence-bar " ++ jsToLower conf
          ++ "\"><div></div></div>\n        <p><b>Confidence:</b> " ++ conf
          ++ "</p>\n        <p>" ++ rat ++ "</p>\n      </div>"
      ∧ jsToLower "Low" = "low" ∧ jsToLower "LOW" = "low" ∧ jsToLower "low" = "low"
      ∧ containsSub ("confidence-bar " ++ jsToLower conf)
          (condBlock ⟨n, some conf, rat⟩) := by
  intro n rat conf
  have hsplit : ("</h3>\n        <div class=\"confidence-bar " : String).data
      = ("</h3>\n        <div class=\"" : String).data
          ++ ("confidence-bar " : String).data := by decide
  refine ⟨rfl, by decide, by decide, by decide, ?_⟩
  apply containsSub_of_decomp _
    ("\n      <div class=\"condition\">\n        <h3>" ++ n
      ++ "</h3>\n        <div class=\"")
    _
    ("\"><div></div></div>\n        <p><b>Confidence:</b> " ++ conf
      ++ "</p>\n        <p>" ++ rat ++ "</p>\n      </div>")
  apply string_eq_of_data
  simp [condBlock, jsInterp, append_data, List.append_assoc, hsplit]

set_option maxRecDepth 100000 in
/-- C6: the record markup always decomposes around the escalation slot,
whose content is the empty string exactly when `escalation` is absent; when
`escalation` is present, the markup contains the banner opening tag with
the level as its class and the banner text with the uppercased level tag
followed by the exact message text. -/
theorem c6_escalation_banner :
    ∀ (r : AdvisoryRecord) (now : Nat),
      escalationHTML none = ""
      ∧ buildResultHTML r now
          = resultPrefixHTML r ++ escalationHTML r.escalation
              ++ resultSuffixHTML r now
      ∧ (∀ e : Escalation, r.escalation = some e →
          containsSub ("🚨 <b>" ++ jsToUpper e.level ++ "</b>: " ++ e.message)
            (buildResultHTML r now)
          ∧ containsSub ("<div class=\"alert " ++ e.level ++ "\">")
            (buildResultHTML r now)) := by
  intro r now
  have hdecomp : buildResultHTML r now
      = resultPrefixHTML r ++ escalationHTML r.escalation
          ++ resultSuffixHTML r now := by
    apply string_eq_of_data
    simp [buildResultHTML, resultPrefixHTML, resultSuffixHTML, append_data,
      List.append_assoc]
  refine ⟨rfl, hdecomp, ?_⟩
  intro e he
  have hsplit1 : ("\">\n        🚨 <b>" : String).data
      = ("\">\n        " : String).data ++ ("🚨 <b>" : String).data := by decide
  have hsplit2 : ("\">\n        🚨 <b>" : String).data
      = ("\">" : String).data ++ ("\n        🚨 <b>" : String).data := by decide
  have hesc : escalationHTML r.escalation
      = "<div class=\"alert " ++ e.level ++ "\">\n        🚨 <b>"
          ++ jsToUpper e.level ++ "</b>: " ++ e.message ++ "\n      </div>" := by
    rw [he]
    rfl
  constructor
  · apply containsSub_of_decomp _
      (resultPrefixHTML r ++ ("<div class=\"alert " ++ e.level ++ "\">\n        "))
      _
      ("\n      </div>" ++ resultSuffixHTML r now)
    rw [hdecomp, hesc]
    apply string_eq_of_data
    simp [append_data, List.append_assoc, hsplit1]
  · apply containsSub_of_decomp _
      (resultPrefixHTML r)
      _
      ("\n        🚨 <b>" ++ jsToUpper e.level ++ "</b>: " ++ e.message
        ++ "\n      </div>" ++ resultSuffixHTML r now)
    rw [hdecomp, hesc]
    apply string_eq_of_data
    simp [append_data, List.append_assoc, hsplit2]

/-- C6 witness: the spec scenario — a record with escalation level
"critical" and message "Seek emergency care" renders a banner containing
the uppercased level tag and the exact message text. -/
theorem c6_witness :
    containsSub ("🚨 <b>" ++ jsToUpper "critical" ++ "</b>: " ++ "Seek emergency care")
      (buildResultHTML recEsc 0)
    ∧ containsSub ("<div class=\"alert " ++ "critical" ++ "\">")
      (buildResultHTML recEsc 0) :=
  (c6_escalation_banner recEsc 0).2.2 ⟨"critical", "Seek emergency care"⟩ rfl

/-- C7: the record markup consists of the sections in the fixed source
order — disclaimer, escalation slot, probable-conditions header and blocks,
next-steps header and list, metadata footer; the conditions markup has one
block per condition in sequence order; the next-steps markup has one list
item per entry in sequence order; and an absent metadata object defaults
the model name to "local" and the footer timestamp to the current time. -/
theorem c7_section_order :
    ∀ (r : AdvisoryRecord) (now : Nat),
      buildResultHTML r now
        = "\n    <div class=\"result-card\">\n      <p class=\"disclaimer\">"
          ++ r.disclaimer ++ "</p>\n      "
          ++ escalationHTML r.escalation
          ++ "\n      <h2>🩺 Probable Conditions</h2>\n      "
          ++ conditionsHTML r.probable_conditions
          ++ "\n      <h2>🧭 Recommended Next Steps</h2>\n      <ul>"
          ++ nextStepsHTML r.next_steps
          ++ "</ul>\n      <div class=\"meta\">\n        <small><b>Model:</b> "
          ++ shownModel r.metadata
          ++ "</small> |\n        <small>"
          ++ shownTimestamp r.metadata now
          ++ "</small>\n      </div>\n    </div>"
      ∧ (∀ c cs, conditionsHTML (some (c :: cs))
          = condBlock c ++ conditionsHTML (some cs))
      ∧ (∀ s ss, nextStepsHTML (some (s :: ss))
          = ("<li>" ++ s ++ "</li>") ++ nextStepsHTML (some ss))
      ∧ (r.metadata = none →
          shownModel r.metadata = "local"
          ∧ shownTimestamp r.metadata now = jsDateOfNow now) := by
  intro r now
  refine ⟨rfl, ?_, ?_, ?_⟩
  · intro c cs
    simp [conditionsHTML, jsJoin]
  · intro s ss
    simp [nextStepsHTML, jsJoin]
  · intro h
    rw [h]
    exact ⟨rfl, rfl⟩

/-- C7 witness: one condition block is prepended in order, and an absent
metadata object yields the "local" model name and the clock timestamp. -/
theorem c7_witness :
    conditionsHTML (some (⟨"Viral infection", some "High", "Common."⟩ :: []))
      = condBlock ⟨"Viral infection", some "High", "Common."⟩
          ++ conditionsHTML (some [])
    ∧ shownModel recNoTs.metadata = "local"
    ∧ shownTimestamp recNoTs.metadata 5 = jsDateOfNow 5 :=
  ⟨(c7_section_order recNoTs 5).2.1 ⟨"Viral infection", some "High", "Common."⟩ [],
   ((c7_section_order recNoTs 5).2.2.2 rfl).1,
   ((c7_section_order recNoTs 5).2.2.2 rfl).2⟩

/-- Closed form of the reveal timer after `t ≥ 1` firings on a non-empty
markup string: the displayed text is the prefix of length
`min (t-1) (length-1)` — note the `-1` from the post-increment slice in the
source — the counter is `min t length`, and the interval has been cleared
exactly when `t ≥ length`. -/
theorem revealRun_closed_form (html : List Char) (hlen : 1 ≤ html.length) :
    ∀ t, 1 ≤ t →
      revealRun html t
        = ⟨html.take (min (t - 1) (html.length - 1)), min t html.length,
           decide (t < html.length)⟩ := by
  intro t ht
  induction t with
  | zero => omega
  | succ n ih =>
    by_cases hn : 1 ≤ n
    · have hrec := ih hn
      show revealTick html (revealRun html n) = _
      rw [hrec]
      unfold revealTick
      by_cases hlt : n < html.length
      · simp only [decide_eq_true hlt, if_true]
        have h1 : min n html.length = n := by omega
        rw [h1]
        simp only [RevealState.mk.injEq]
        refine ⟨?_, by omega, trivial⟩
        congr 1
        omega
      · simp only [decide_eq_false hlt, Bool.false_eq_true, if_false]
        have d2 : decide (n + 1 < html.length) = false := decide_eq_false (by omega)
        rw [d2]
        simp only [RevealState.mk.injEq]
        refine ⟨?_, by omega, trivial⟩
        congr 1
        omega
    · have hn0 : n = 0 := by omega
      subst hn0
      show revealTick html revealInit = _
      unfold revealTick revealInit
      simp only [if_true]
      have h1 : min (1 : Nat) html.length = 1 := by omega
      rw [h1]
      simp

set_option maxRecDepth 200000 in
/-- The rendered markup of any record is non-empty (it starts with the
fixed result-card template text). -/
theorem buildResultHTML_data_len_pos (r : AdvisoryRecord) (now : Nat) :
    1 ≤ (buildResultHTML r now).data.length := by
  simp [buildResultHTML, append_data, List.length_append]

/-- C1 (amended): on every record's markup, the reveal driver shows
monotonically growing prefixes and eventually stops (the interval is
cleared and the state is frozen); the final revealed content is the prefix
of the markup missing its last character — `length - 1` characters — not
the full markup string. -/
theorem c1_reveal_monotone_stops :
    ∀ (r : AdvisoryRecord) (now : Nat),
      (∀ j k : Nat, j ≤ k →
        (revealRun (buildResultHTML r now).data j).display
          <+: (revealRun (buildResultHTML r now).data k).display)
      ∧ (∀ n : Nat, (buildResultHTML r now).data.length ≤ n →
          revealRun (buildResultHTML r now).data n
            = ⟨(buildResultHTML r now).data.take
                 ((buildResultHTML r now).data.length - 1),
               (buildResultHTML r now).data.length, false⟩) := by
  intro r now
  have hlen : 1 ≤ (buildResultHTML r now).data.length :=
    buildResultHTML_data_len_pos r now
  constructor
  · intro j k hjk
    by_cases hj : 1 ≤ j
    · have hk : 1 ≤ k := le_trans hj hjk
      rw [revealRun_closed_form _ hlen j hj, revealRun_closed_form _ hlen k hk]
      exact take_prefix_mono _ _ _ (by omega)
    · have hj0 : j = 0 := by omega
      subst hj0
      show (revealRun _ 0).display <+: _
      exact ⟨_, rfl⟩
  · intro n hn
    rw [revealRun_closed_form _ hlen n (by omega)]
    have e1 : min (n - 1) ((buildResultHTML r now).data.length - 1)
        = (buildResultHTML r now).data.length - 1 := by omega
    have e2 : min n (buildResultHTML r now).data.length
        = (buildResultHTML r now).data.length := by omega
    rw [e1, e2, decide_eq_false (by omega)]

set_option maxRecDepth 200000 in
/-- C1 witness: on a concrete record's markup, the display after 3 ticks is
a prefix of the display after 7 ticks, and after `length` ticks the driver
is frozen at the all-but-last-character prefix. -/
theorem c1_witness :
    (revealRun demoHTML 3).display <+: (revealRun demoHTML 7).display
    ∧ revealRun demoHTML demoHTML.length
        = ⟨demoHTML.take (demoHTML.length - 1), demoHTML.length, false⟩ :=
  ⟨(c1_reveal_monotone_stops recDemo 0).1 3 7 (by omega),
   (c1_reveal_monotone_stops recDemo 0).2 demoHTML.length (Nat.le_refl _)⟩

set_option maxRecDepth 200000 in
/-- C1 counterexample: on a concrete advisory record, the reveal driver
stops (interval cleared, state frozen from `length` ticks on) but the final
revealed content is NOT the full markup produced by `buildResultHTML` — the
post-increment slice bound in the source means the last character is never
shown. -/
theorem c1_counterexample :
    (revealRun demoHTML demoHTML.length).display ≠ demoHTML
    ∧ (revealRun demoHTML demoHTML.length).active = false
    ∧ revealRun demoHTML (demoHTML.length + 5)
        = revealRun demoHTML demoHTML.length := by
  have hlen : 1 ≤ demoHTML.length := buildResultHTML_data_len_pos recDemo 0
  have h1 := revealRun_closed_form demoHTML hlen demoHTML.length hlen
  have h2 := revealRun_closed_form demoHTML hlen (demoHTML.length + 5) (by omega)
  refine ⟨?_, ?_, ?_⟩
  · rw [h1]
    intro heq
    have hlen2 := congrArg List.length heq
    simp only [List.length_take] at hlen2
    omega
  · rw [h1]
    simp
  · rw [h1, h2]
    have e1 : min (demoHTML.length + 5 - 1) (demoHTML.length - 1)
        = min (demoHTML.length - 1) (demoHTML.length - 1) := by omega
    have e2 : min (demoHTML.length + 5) demoHTML.length
        = min demoHTML.length demoHTML.length := by omega
    rw [e1, e2, decide_eq_false (show ¬demoHTML.length + 5 < demoHTML.length by omega),
      decide_eq_false (show ¬demoHTML.length < demoHTML.length by omega)]

/-- C2 counterexample: `typeResult` invoked mid-reveal does not cancel the
previous timer. After `typeResult("XY")`, one tick, then `typeResult("AB")`,
the display has restarted empty but the first timer is still registered and
active, and its next firing mutates the display again (to the prefix "X" of
the old markup). -/
theorem c2_counterexample :
    overlapState.shown = []
    ∧ overlapState.jobs[0]? = some ⟨"XY".data, 1, true⟩
    ∧ (jobTick overlapState 0).shown = ['X']
    ∧ (jobTick overlapState 0).shown ≠ overlapState.shown := by decide

/-- C2 (amended): a `typeResult` call made while a previous reveal is in
flight restarts the display from the empty string, but does NOT cancel the
previous reveal's timer: that timer survives the call unchanged (still
active), and its next firing again overwrites the displayed output with its
own prefix. -/
theorem c2_no_cancellation :
    ∀ (s : DisplayState) (html : List Char) (t : Nat) (j : RevealJob),
      s.jobs[t]? = some j → j.active = true →
      (typeResultCall html s).shown = []
      ∧ (typeResultCall html s).jobs[t]? = some j
      ∧ (jobTick (typeResultCall html s) t).shown = j.html.take j.i := by
  intro s html t j hj hact
  have ht : t < s.jobs.length := by
    by_contra hcon
    rw [List.getElem?_eq_none (by omega)] at hj
    cases hj
  have hj2 : (typeResultCall html s).jobs[t]? = some j := by
    show (s.jobs ++ [⟨html, 0, true⟩])[t]? = some j
    rw [List.getElem?_append]
    rw [if_pos ht]
    exact hj
  refine ⟨rfl, hj2, ?_⟩
  simp [jobTick, hj2, hact]

/-- C2 witness: the amended statement at the concrete overlapping-call
scenario — after `typeResult("AB")` arrives mid-reveal of "XY", the display
is empty, the old timer is intact, and its next tick shows "X". -/
theorem c2_witness :
    (typeResultCall ("AB".data) midReveal).shown = []
    ∧ (typeResultCall ("AB".data) midReveal).jobs[0]? = some ⟨"XY".data, 1, true⟩
    ∧ (jobTick (typeResultCall ("AB".data) midReveal) 0).shown = "XY".data.take 1 :=
  c2_no_cancellation midReveal ("AB".data) 0 ⟨"XY".data, 1, true⟩ (by decide) rfl
